import Mathlib

/-!
Shallow embedding of the reconciliation engine of `src/exif_injector.py`
(Google Takeout EXIF injector).  Python floats are modelled as exact
rationals, Python dynamic JSON values as the inductive `PyVal`, and the
exiftool command line built by the `build_exiftool_cmd_*` functions as a
list of structured field assignments (the fixed `exiftool
-overwrite_original` prefix and the trailing file path are not field
assignments and are omitted).  String formatting of numbers in log
records and command values is kept structural (a rational is stored
instead of its decimal rendering).
-/

namespace ExifInjector

/-- Dynamic Python value as found in parsed JSON metadata
(`parse_json_metadata` result for the `timestamp` key): `None`, an int,
a string, or a bool. -/
inductive PyVal where
  | vNone : PyVal
  | vInt (n : Int) : PyVal
  | vStr (s : String) : PyVal
  | vBool (b : Bool) : PyVal
deriving DecidableEq

/-- Python truthiness of a `PyVal` (used by `if not json_timestamp:`). -/
def pyTruthy : PyVal → Bool
  | .vNone => false
  | .vInt n => n ≠ 0
  | .vStr s => s ≠ ""
  | .vBool b => b

/-- Value of a list of decimal digit characters. -/
def digitsVal (cs : List Char) : Nat :=
  cs.foldl (fun a c => 10 * a + (c.toNat - 48)) 0

/-- Python `int(s)` on a string: strip surrounding whitespace, optional
sign, then decimal digits; anything else raises `ValueError` (modelled
as `none`).  Underscore digit separators and non-ASCII digits accepted
by CPython are outside this model. -/
def parseIntStr (s : String) : Option Int :=
  let core : List Char → Option Int := fun cs =>
    if cs ≠ [] ∧ cs.all Char.isDigit then some (digitsVal cs) else none
  match s.trim.data with
  | '+' :: rest => core rest
  | '-' :: rest => (core rest).map (fun n => -n)
  | cs => core cs

/-- Python `int(v)` conversion on a `PyVal`: identity on ints,
`True`/`False` become `1`/`0`, strings are parsed, `None` raises
(`none`). -/
def pyInt : PyVal → Option Int
  | .vNone => none
  | .vInt n => some n
  | .vStr s => parseIntStr s
  | .vBool b => some (if b then 1 else 0)

/-- `validate_timestamp` (src line 153): `None` is invalid; otherwise
`int(timestamp)` must succeed and lie strictly between 0 and
4102444800. -/
def validate_timestamp (v : PyVal) : Bool :=
  match pyInt v with
  | some t => decide (0 < t) && decide (t < 4102444800)
  | none => false

/-- `validate_gps` (src line 147): `(0,0)` is rejected, then the
latitude/longitude range check. -/
def validate_gps (lat lon : ℚ) : Bool :=
  if lat = 0 ∧ lon = 0 then false
  else decide (-90 ≤ lat) && decide (lat ≤ 90) &&
       decide (-180 ≤ lon) && decide (lon ≤ 180)

/-! ### Civil/epoch date arithmetic (UTC)

`datetime.strptime(%Y:%m:%d %H:%M:%S)` + `replace(tzinfo=utc)` versus
`datetime.fromtimestamp(ts, utc)` boils down to exact integer arithmetic
on seconds since the Unix epoch; we embed it with the standard
days-from-civil algorithm. -/

/-- Gregorian leap year. -/
def isLeap (y : Nat) : Bool :=
  y % 4 = 0 && (y % 100 ≠ 0 || y % 400 = 0)

/-- Number of days in a month (`datetime` validity check). -/
def daysInMonth (y m : Nat) : Nat :=
  if m = 2 then (if isLeap y then 29 else 28)
  else if m = 4 ∨ m = 6 ∨ m = 9 ∨ m = 11 then 30
  else 31

/-- Days from 1970-01-01 to year `y`, month `m`, day `d` (proleptic
Gregorian, `y ≥ 1`, `1 ≤ m ≤ 12`). -/
def daysFromCivil (y m d : Nat) : Int :=
  let y2 := if m ≤ 2 then y - 1 else y
  let era := y2 / 400
  let yoe := y2 % 400
  let mp := (m + 9) % 12
  let doy := (153 * mp + 2) / 5 + d - 1
  let doe := yoe * 365 + yoe / 4 - yoe / 100 + doy
  (era * 146097 + doe : Int) - 719468

/-- Seconds since the Unix epoch of a UTC civil date-time. -/
def epochOfCivil (y mo d h mi s : Nat) : Int :=
  daysFromCivil y mo d * 86400 + h * 3600 + mi * 60 + s

/-- One numeric field of the `strptime` format regex: either two digits
whose value satisfies `valid2`, or (when not followed by a second
digit) one digit whose value satisfies `valid1`. -/
def field2or1 (valid2 valid1 : Nat → Bool) : List Char → Option (Nat × List Char)
  | c1 :: c2 :: rest =>
    if c1.isDigit && c2.isDigit then
      let v := 10 * (c1.toNat - 48) + (c2.toNat - 48)
      if valid2 v then some (v, rest) else none
    else if c1.isDigit && valid1 (c1.toNat - 48) then
      some (c1.toNat - 48, c2 :: rest)
    else none
  | [c1] =>
    if c1.isDigit && valid1 (c1.toNat - 48) then some (c1.toNat - 48, []) else none
  | [] => none

/-- Expect one literal character. -/
def expectChar (c : Char) : List Char → Option (List Char)
  | x :: rest => if x = c then some rest else none
  | [] => none

/-- CPython `_strptime` regex for the format `%Y:%m:%d %H:%M:%S`,
including the final no-unconverted-data check: `%Y` is exactly four
digits; month/day/hour/minute/second each admit a two-digit form with
the range of the regex alternation or a bare single digit. -/
def strptimeYmdHMS (cs : List Char) : Option (Nat × Nat × Nat × Nat × Nat × Nat) :=
  match cs with
  | y1 :: y2 :: y3 :: y4 :: r0 =>
    if y1.isDigit && y2.isDigit && y3.isDigit && y4.isDigit then
      let y := digitsVal [y1, y2, y3, y4]
      match expectChar ':' r0 with
      | none => none
      | some r1 =>
        match field2or1 (fun v => 1 ≤ v && v ≤ 12) (fun v => 1 ≤ v) r1 with
        | none => none
        | some (mo, r2) =>
          match expectChar ':' r2 with
          | none => none
          | some r3 =>
            match field2or1 (fun v => 1 ≤ v && v ≤ 31) (fun v => 1 ≤ v) r3 with
            | none => none
            | some (d, r4) =>
              match expectChar ' ' r4 with
              | none => none
              | some r5 =>
                match field2or1 (fun v => v ≤ 23) (fun _ => true) r5 with
                | none => none
                | some (h, r6) =>
                  match expectChar ':' r6 with
                  | none => none
                  | some r7 =>
                    match field2or1 (fun v => v ≤ 59) (fun _ => true) r7 with
                    | none => none
                    | some (mi, r8) =>
                      match expectChar ':' r8 with
                      | none => none
                      | some r9 =>
                        match field2or1 (fun v => v ≤ 61) (fun _ => true) r9 with
                        | none => none
                        | some (se, r10) =>
                          if r10 = [] then some (y, mo, d, h, mi, se) else none
    else none
  | _ => none

/-- `datetime.strptime(exif_date[:19], %Y:%m:%d %H:%M:%S)` interpreted
in UTC and converted to epoch seconds: `none` models the `ValueError`
path (regex mismatch, or a value the `datetime` constructor rejects:
year 0, an impossible day of month, or a leap second). -/
def parse_exif_datetime (s : String) : Option Int :=
  match strptimeYmdHMS (s.data.take 19) with
  | none => none
  | some (y, mo, d, h, mi, se) =>
    if 1 ≤ y ∧ d ≤ daysInMonth y mo ∧ se ≤ 59 then
      some (epochOfCivil y mo d h mi se)
    else none

/-- Comparison outcome strings of `compare_dates` / `compare_gps`. -/
inductive CmpRes where
  | equal | different | exif_missing | json_missing | both_missing
deriving DecidableEq

/-- `compare_dates` (src line 233).  The sidecar timestamp argument is
the already-`int`-converted value (`none` for Python `None`); a zero
int is falsy in Python exactly as modelled here.  Tolerance:
`DATE_TOLERANCE_SECONDS = 25 * 3600 = 90000`. -/
def compare_dates (exif_date : Option String) (json_timestamp : Option Int) : CmpRes :=
  let exifFalsy := exif_date = none ∨ exif_date = some ""
  let jsonFalsy := json_timestamp = none ∨ json_timestamp = some 0
  if exifFalsy ∧ jsonFalsy then .both_missing
  else if exifFalsy then .exif_missing
  else if jsonFalsy then .json_missing
  else
    match parse_exif_datetime (exif_date.getD "") with
    | none => .different
    | some e => if (e - json_timestamp.getD 0).natAbs ≤ 90000 then .equal else .different

/-! ### GPS extraction and comparison -/

/-- A raw value of a GPS tag in the extracted-tag record: a number or a
string (exiftool renders coordinates as DMS text). -/
inductive TagVal where
  | num (q : ℚ) : TagVal
  | str (s : String) : TagVal
deriving DecidableEq

/-- Python truthiness of an optional tag value. -/
def tagTruthy : Option TagVal → Bool
  | none => false
  | some (.num q) => q ≠ 0
  | some (.str s) => s ≠ ""

/-- Strip a literal character list from the front, or fail. -/
def stripLit : List Char → List Char → Option (List Char)
  | [], cs => some cs
  | l :: ls, c :: cs => if c = l then stripLit ls cs else none
  | _ :: _, [] => none

/-- The groups of the regex used by `dms_to_decimal` (src line 221):
digits, literal " deg ", digits, apostrophe and space, digits-or-dots,
double quote and space, one of NSEW; `re.match` anchors at the start
only, trailing characters are ignored. -/
def dms_groups (cs : List Char) : Option (List Char × List Char × List Char × Char) :=
  let (dg, r1) := cs.span Char.isDigit
  if dg = [] then none else
  match stripLit " deg ".data r1 with
  | none => none
  | some r2 =>
    let (mn, r3) := r2.span Char.isDigit
    if mn = [] then none else
    match stripLit [Char.ofNat 39, ' '] r3 with
    | none => none
    | some r4 =>
      let (sc, r5) := r4.span (fun c => c.isDigit || c = '.')
      if sc = [] then none else
      match stripLit [Char.ofNat 34, ' '] r5 with
      | none => none
      | some r6 =>
        match r6 with
        | d :: _ =>
          if d = 'N' || d = 'S' || d = 'E' || d = 'W' then some (dg, mn, sc, d) else none
        | [] => none

/-- Python `float()` on a string drawn from the character class of
digits and dots: at most one dot and at least one digit, otherwise
`ValueError` (`none`). -/
def parseFloatQ (cs : List Char) : Option ℚ :=
  let (ip, r) := cs.span Char.isDigit
  match r with
  | [] => if ip = [] then none else some (digitsVal ip : ℚ)
  | '.' :: r2 =>
    let (fp, r3) := r2.span Char.isDigit
    if r3 ≠ [] then none
    else if ip = [] ∧ fp = [] then none
    else some ((digitsVal ip : ℚ) + (digitsVal fp : ℚ) / (10 : ℚ) ^ fp.length)
  | _ => none

/-- `dms_to_decimal` (src line 218): a non-matching string returns 0.0
(not an error); a matching string yields `deg + min/60 + sec/3600`,
negated for S and W.  `none` models the uncaught `ValueError` that
`float` raises when the seconds group is all dots. -/
def dms_to_decimal (s : String) : Option ℚ :=
  match dms_groups s.data with
  | none => some 0
  | some (dg, mn, sc, dir) =>
    match parseFloatQ sc with
    | none => none
    | some scv =>
      let dec : ℚ := (digitsVal dg : ℚ) + (digitsVal mn : ℚ) / 60 + scv / 3600
      some (if dir = 'S' || dir = 'W' then -dec else dec)

/-- The extracted-tag record (the dict returned by `extract_exif`),
restricted to the keys the engine reads.  A `none` entry is an absent
key. -/
structure ExtractedTags where
  dateTimeOriginal : Option String := none
  createDate : Option String := none
  mediaCreateDate : Option String := none
  trackCreateDate : Option String := none
  dateCreated : Option String := none
  xmpDateCreated : Option String := none
  gpsLatitude : Option TagVal := none
  gpsLongitude : Option TagVal := none
deriving DecidableEq

/-- Media kind as classified by `get_file_type`. -/
inductive FileType where
  | photo | video | image | unknown
deriving DecidableEq

/-- First truthy entry of a list of optional strings (the
`if field in exif_data and exif_data[field]` scan). -/
def firstTruthy : List (Option String) → Option String
  | [] => none
  | none :: rest => firstTruthy rest
  | some s :: rest => if s = "" then firstTruthy rest else some s

/-- `parse_exif_date` (src line 192): scan `EXIF_DATE_FIELDS[file_type]`
in order and return the first truthy value. -/
def parse_exif_date (tags : ExtractedTags) : FileType → Option String
  | .photo => firstTruthy [tags.dateTimeOriginal, tags.createDate]
  | .video => firstTruthy [tags.createDate, tags.mediaCreateDate, tags.trackCreateDate]
  | .image => firstTruthy [tags.dateCreated, tags.xmpDateCreated]
  | .unknown => firstTruthy []

/-- Numeric value of a GPS tag entry: numbers pass through `float()`,
strings go through `dms_to_decimal` (whose `ValueError` propagates). -/
def tagToDec : TagVal → Option ℚ
  | .num q => some q
  | .str s => dms_to_decimal s

/-- `parse_exif_gps` (src line 200): both raw entries must be truthy;
string entries are DMS-converted; any exception in the conversion is
swallowed by the bare `except`, yielding `None`. -/
def parse_exif_gps (tags : ExtractedTags) : Option (ℚ × ℚ) :=
  if tagTruthy tags.gpsLatitude ∧ tagTruthy tags.gpsLongitude then
    match tags.gpsLatitude, tags.gpsLongitude with
    | some la, some lo =>
      match tagToDec la, tagToDec lo with
      | some a, some b => some (a, b)
      | _, _ => none
    | _, _ => none
  else none

/-- `compare_gps` (src line 265): the sidecar side is checked with
`validate_gps`, the extracted side only with `is not None`; when both
are present, equality holds iff both coordinate deltas are below
0.0001. -/
def compare_gps (exif_gps : Option (ℚ × ℚ)) (json_lat json_lon : ℚ) : CmpRes :=
  let json_has_gps := validate_gps json_lat json_lon
  match exif_gps, json_has_gps with
  | none, false => .both_missing
  | none, true => .exif_missing
  | some _, false => .json_missing
  | some (a, b), true =>
    if |a - json_lat| < 1/10000 ∧ |b - json_lon| < 1/10000 then .equal else .different

/-! ### Sidecar metadata, conflicts, write plans, and the decision -/

/-- The dict built by `parse_json_metadata` (src line 107); `people` is
the list of the `name` entries (a missing name is the default `""`). -/
structure SidecarMeta where
  timestamp : PyVal
  latitude : ℚ
  longitude : ℚ
  altitude : ℚ
  people : List String
  favorited : Bool
  description : String
deriving DecidableEq

/-- The timestamp normalization of `process_file` (src lines 521-523):
an invalid timestamp is replaced by `None` before any comparison. -/
def normalize_timestamp (j : SidecarMeta) : SidecarMeta :=
  if validate_timestamp j.timestamp then j else { j with timestamp := .vNone }

/-- A value recorded in a conflict log entry; numeric string formatting
is kept structural.  `na` is the literal `N/A`. -/
inductive ConflVal where
  | s (x : String) : ConflVal
  | pair (a b : ℚ) : ConflVal
  | na : ConflVal
deriving DecidableEq

/-- One row of the conflict log (src lines 299-318), minus the file
path, which the engine does not inspect. -/
structure Conflict where
  fieldName : String
  exifValue : ConflVal
  jsonValue : ConflVal
deriving DecidableEq

/-- `unix_to_exif_date` needs the inverse civil-from-days computation;
returns `(year, month, day)` for a day count relative to the epoch. -/
def civilFromDays (z0 : Int) : Int × Nat × Nat :=
  let z := z0 + 719468
  let era := Int.fdiv z 146097
  let doe := (z - era * 146097).toNat
  let yoe := (doe - doe / 1460 + doe / 36524 - doe / 146096) / 365
  let doy := doe - (365 * yoe + yoe / 4 - yoe / 100)
  let mp := (5 * doy + 2) / 153
  let d := doy - (153 * mp + 2) / 5 + 1
  let m := if mp < 10 then mp + 3 else mp - 9
  (era * 400 + yoe + (if m ≤ 2 then 1 else 0), m, d)

/-- Zero-padded decimal rendering. -/
def padNum (width n : Nat) : String :=
  let s := toString n
  String.mk (List.replicate (width - s.length) '0') ++ s

/-- `unix_to_exif_date` (src line 164): UTC rendering of an epoch
second count in the EXIF format `YYYY:MM:DD HH:MM:SS`. -/
def unix_to_exif_date (t : Int) : String :=
  let days := Int.fdiv t 86400
  let secs := (t - days * 86400).toNat
  let c := civilFromDays days
  padNum 4 c.1.toNat ++ ":" ++ padNum 2 c.2.1 ++ ":" ++ padNum 2 c.2.2 ++ " " ++
  padNum 2 (secs / 3600) ++ ":" ++ padNum 2 (secs % 3600 / 60) ++ ":" ++ padNum 2 (secs % 60)

/-- `detect_conflicts` (src line 287): a Date conflict is recorded only
when the sidecar timestamp validates and the comparator says
`different`; a GPS conflict whenever the GPS comparator says
`different`. -/
def detect_conflicts (tags : ExtractedTags) (j : SidecarMeta) (file_type : FileType) :
    List Conflict :=
  let exif_date := parse_exif_date tags file_type
  let dateC : List Conflict :=
    if validate_timestamp j.timestamp then
      if compare_dates exif_date (pyInt j.timestamp) = .different then
        [{ fieldName := "Date",
           exifValue := match exif_date with | some s => .s s | none => .na,
           jsonValue := .s (unix_to_exif_date ((pyInt j.timestamp).getD 0)) }]
      else []
    else []
  let exif_gps := parse_exif_gps tags
  let gpsC : List Conflict :=
    if compare_gps exif_gps j.latitude j.longitude = .different then
      [{ fieldName := "GPS",
         exifValue := match exif_gps with | some (a, b) => .pair a b | none => .na,
         jsonValue := .pair j.latitude j.longitude }]
    else []
  dateC ++ gpsC

/-- The value of one exiftool field assignment; numbers stay
structural (`q` for a single magnitude, `pair` for the combined
QuickTime `lat, lon` value). -/
inductive AVal where
  | s (x : String) : AVal
  | q (v : ℚ) : AVal
  | pair (a b : ℚ) : AVal
deriving DecidableEq

/-- One `-Tag=value` field assignment of an exiftool command. -/
structure Assign where
  tag : String
  val : AVal
deriving DecidableEq

/-- `build_exiftool_cmd_photo` (src line 326), as its list of field
assignments in source order. -/
def build_exiftool_cmd_photo (j : SidecarMeta) : List Assign :=
  (if validate_timestamp j.timestamp then
    let ds := unix_to_exif_date ((pyInt j.timestamp).getD 0)
    [⟨"DateTimeOriginal", .s ds⟩, ⟨"CreateDate", .s ds⟩]
   else []) ++
  (if validate_gps j.latitude j.longitude then
    [⟨"GPSLatitude", .q |j.latitude|⟩,
     ⟨"GPSLatitudeRef", .s (if j.latitude < 0 then "South" else "North")⟩,
     ⟨"GPSLongitude", .q |j.longitude|⟩,
     ⟨"GPSLongitudeRef", .s (if j.longitude < 0 then "West" else "East")⟩,
     ⟨"GPSAltitude", .q |j.altitude|⟩,
     ⟨"GPSAltitudeRef", .s "Above Sea Level"⟩]
   else []) ++
  (let names := j.people.filter (fun n => n ≠ "")
   if j.people ≠ [] ∧ names ≠ [] then
     [⟨"IPTC:Keywords", .s (String.intercalate "," names)⟩]
   else []) ++
  (if j.favorited then [⟨"XMP:Rating", .s "5"⟩] else []) ++
  (let desc := j.description.trim
   if desc ≠ "" then [⟨"IPTC:Caption-Abstract", .s desc⟩] else [])

/-- `build_exiftool_cmd_video` (src line 375). -/
def build_exiftool_cmd_video (j : SidecarMeta) : List Assign :=
  (if validate_timestamp j.timestamp then
    let ds := unix_to_exif_date ((pyInt j.timestamp).getD 0)
    [⟨"CreateDate", .s ds⟩, ⟨"MediaCreateDate", .s ds⟩, ⟨"TrackCreateDate", .s ds⟩]
   else []) ++
  (if validate_gps j.latitude j.longitude then
    [⟨"Keys:GPSCoordinates", .pair j.latitude j.longitude⟩]
   else []) ++
  (let desc := j.description.trim
   if desc ≠ "" then [⟨"Description", .s desc⟩] else [])

/-- `build_exiftool_cmd_image` (src line 403): PNG/GIF/WEBP get XMP
dates and a description; GPS is intentionally never written. -/
def build_exiftool_cmd_image (j : SidecarMeta) : List Assign :=
  (if validate_timestamp j.timestamp then
    let ds := unix_to_exif_date ((pyInt j.timestamp).getD 0)
    [⟨"DateCreated", .s ds⟩, ⟨"XMP:DateCreated", .s ds⟩]
   else []) ++
  (let desc := j.description.trim
   if desc ≠ "" then [⟨"Description", .s desc⟩] else [])

/-- Kind dispatch of `process_file` (src lines 570-577). -/
def buildPlan (kind : FileType) (j : SidecarMeta) : List Assign :=
  match kind with
  | .photo => build_exiftool_cmd_photo j
  | .video => build_exiftool_cmd_video j
  | .image => build_exiftool_cmd_image j
  | .unknown => []

/-- Per-asset decision of `process_file`: conflicted assets are vetoed,
`complete` assets are skipped, `unsupported` is the final `else` of the
kind dispatch. -/
inductive Decision where
  | conflicted | complete | needsUpdate | unsupported
deriving DecidableEq

/-- A decision together with the write plan it produces (empty when no
exiftool command is built). -/
structure Outcome where
  decision : Decision
  plan : List Assign
deriving DecidableEq

/-- The engine portion of `process_file` (src lines 521-577): normalize
the sidecar timestamp, veto on conflicts, skip when the
already-complete condition of line 565 holds, otherwise build the
kind-specific plan. -/
def process_decide (tags : ExtractedTags) (j0 : SidecarMeta) (kind : FileType) : Outcome :=
  let j := normalize_timestamp j0
  if detect_conflicts tags j kind ≠ [] then ⟨.conflicted, []⟩
  else
    let date_status := compare_dates (parse_exif_date tags kind) (pyInt j.timestamp)
    let gps_status := compare_gps (parse_exif_gps tags) j.latitude j.longitude
    if (date_status = .equal ∨ date_status = .json_missing) ∧
       (gps_status = .equal ∨ gps_status = .json_missing ∨ gps_status = .both_missing) then
      ⟨.complete, []⟩
    else if kind = .unknown then ⟨.unsupported, []⟩
    else ⟨.needsUpdate, buildPlan kind j⟩

/-! ### Helper lemmas -/

set_option maxRecDepth 10000

theorem normalize_timestamp_of_valid (j : SidecarMeta) (h : validate_timestamp j.timestamp = true) :
    normalize_timestamp j = j := by
  unfold normalize_timestamp
  rw [if_pos h]

theorem normalize_timestamp_of_invalid (j : SidecarMeta) (h : validate_timestamp j.timestamp = false) :
    normalize_timestamp j = { j with timestamp := .vNone } := by
  unfold normalize_timestamp
  rw [if_neg]
  simp [h]

theorem normalize_timestamp_latitude (j : SidecarMeta) :
    (normalize_timestamp j).latitude = j.latitude := by
  unfold normalize_timestamp
  split <;> rfl

theorem normalize_timestamp_longitude (j : SidecarMeta) :
    (normalize_timestamp j).longitude = j.longitude := by
  unfold normalize_timestamp
  split <;> rfl

theorem validate_timestamp_normalize (j : SidecarMeta) :
    validate_timestamp (normalize_timestamp j).timestamp = validate_timestamp j.timestamp := by
  unfold normalize_timestamp
  split
  · rfl
  · rename_i h
    simp only [Bool.not_eq_true] at h
    rw [h]
    rfl

/-- Date comparator status as computed inside `process_file` (after the
timestamp normalization of lines 521-523). -/
def date_status (tags : ExtractedTags) (j : SidecarMeta) (kind : FileType) : CmpRes :=
  compare_dates (parse_exif_date tags kind) (pyInt (normalize_timestamp j).timestamp)

/-- GPS comparator status as computed inside `process_file`. -/
def gps_status (tags : ExtractedTags) (j : SidecarMeta) : CmpRes :=
  compare_gps (parse_exif_gps tags) j.latitude j.longitude

/-- Already-complete condition of src line 565. -/
def complete_cond (tags : ExtractedTags) (j : SidecarMeta) (kind : FileType) : Prop :=
  (date_status tags j kind = .equal ∨ date_status tags j kind = .json_missing) ∧
  (gps_status tags j = .equal ∨ gps_status tags j = .json_missing ∨
   gps_status tags j = .both_missing)

instance (tags : ExtractedTags) (j : SidecarMeta) (kind : FileType) :
    Decidable (complete_cond tags j kind) := by
  unfold complete_cond
  infer_instance

theorem process_decide_eq (tags : ExtractedTags) (j : SidecarMeta) (kind : FileType) :
    process_decide tags j kind =
      if detect_conflicts tags (normalize_timestamp j) kind ≠ [] then ⟨.conflicted, []⟩
      else if complete_cond tags j kind then ⟨.complete, []⟩
      else if kind = .unknown then ⟨.unsupported, []⟩
      else ⟨.needsUpdate, buildPlan kind (normalize_timestamp j)⟩ := by
  simp only [process_decide, complete_cond, date_status, gps_status,
    normalize_timestamp_latitude, normalize_timestamp_longitude]

theorem needsUpdate_plan (tags : ExtractedTags) (j : SidecarMeta) (kind : FileType)
    (h : (process_decide tags j kind).decision = .needsUpdate) :
    process_decide tags j kind = ⟨.needsUpdate, buildPlan kind (normalize_timestamp j)⟩ := by
  rw [process_decide_eq] at h ⊢
  split_ifs at h ⊢
  simp_all

theorem mem_photo_plan_gps (j : SidecarMeta) :
    "GPSLatitude" ∈ (build_exiftool_cmd_photo j).map Assign.tag ↔
      validate_gps j.latitude j.longitude = true := by
  unfold build_exiftool_cmd_photo
  split_ifs <;> simp_all

theorem mem_photo_plan_date (j : SidecarMeta) :
    "DateTimeOriginal" ∈ (build_exiftool_cmd_photo j).map Assign.tag ↔
      validate_timestamp j.timestamp = true := by
  unfold build_exiftool_cmd_photo
  split_ifs <;> simp_all

/-! ### Claim theorems -/

/-- C1: whenever `detect_conflicts` returns a non-empty list for an
asset, `process_file` makes no write plan at all (both fields included,
also the non-conflicting one) and the decision is Conflicted. -/
theorem conflicts_veto_all_writes (tags : ExtractedTags) (j : SidecarMeta) (kind : FileType)
    (h : detect_conflicts tags (normalize_timestamp j) kind ≠ []) :
    process_decide tags j kind = ⟨.conflicted, []⟩ := by
  rw [process_decide_eq, if_pos h]

/-- C1 witness: a date-only conflict (GPS absent on both sides) still
vetoes the asset completely. -/
theorem conflicts_veto_all_writes_witness :
    detect_conflicts { dateTimeOriginal := some "1990:01:01 00:00:00" }
        (normalize_timestamp ⟨.vInt 1700000000, 0, 0, 0, [], false, ""⟩) .photo ≠ [] ∧
    process_decide { dateTimeOriginal := some "1990:01:01 00:00:00" }
        ⟨.vInt 1700000000, 0, 0, 0, [], false, ""⟩ .photo = ⟨.conflicted, []⟩ :=
  ⟨by with_unfolding_all decide,
   conflicts_veto_all_writes _ _ _ (by with_unfolding_all decide)⟩

/-- C2: for a conflict-free asset of a supported kind, the decision is
Complete exactly when the date comparator is in set Equal,
OnlyInExtracted and the GPS comparator is in set Equal,
OnlyInExtracted, BothAbsent; otherwise it is NeedsUpdate with the
kind-specific plan built. -/
theorem conflict_free_decision (tags : ExtractedTags) (j : SidecarMeta) (kind : FileType)
    (hk : kind ≠ .unknown)
    (hc : detect_conflicts tags (normalize_timestamp j) kind = []) :
    ((process_decide tags j kind).decision = .complete ↔ complete_cond tags j kind) ∧
    (¬ complete_cond tags j kind →
      process_decide tags j kind = ⟨.needsUpdate, buildPlan kind (normalize_timestamp j)⟩) := by
  rw [process_decide_eq, if_neg (not_not_intro hc)]
  by_cases hcc : complete_cond tags j kind
  · simp [hcc]
  · simp [hcc, hk]

/-- C2 witness: no extracted date, valid sidecar timestamp and GPS:
OnlyInSidecar on the date side defeats the complete condition and the
photo plan is built. -/
theorem conflict_free_decision_witness :
    ¬ complete_cond {} ⟨.vInt 1700000000, 40, -739/10, 0, [], false, ""⟩ .photo ∧
    process_decide {} ⟨.vInt 1700000000, 40, -739/10, 0, [], false, ""⟩ .photo =
      ⟨.needsUpdate,
       buildPlan .photo (normalize_timestamp ⟨.vInt 1700000000, 40, -739/10, 0, [], false, ""⟩)⟩ :=
  ⟨by with_unfolding_all decide,
   (conflict_free_decision {} ⟨.vInt 1700000000, 40, -739/10, 0, [], false, ""⟩ .photo
      (by decide) (by with_unfolding_all decide)).2 (by with_unfolding_all decide)⟩

/-- C3: with both sides present, `compare_dates` is Equal exactly when
the first 19 characters parse in the EXIF format to an epoch second
count within 90000 seconds of the sidecar timestamp; an unparseable
extracted date yields Different, and no other outcome is possible. -/
theorem compare_dates_both_present (s : String) (t : Int) (hs : s ≠ "") (ht : t ≠ 0) :
    (compare_dates (some s) (some t) = .equal ↔
      (∃ e, parse_exif_datetime s = some e ∧ (e - t).natAbs ≤ 90000)) ∧
    (parse_exif_datetime s = none → compare_dates (some s) (some t) = .different) ∧
    (compare_dates (some s) (some t) = .equal ∨ compare_dates (some s) (some t) = .different) := by
  unfold compare_dates
  simp only [Option.some.injEq, reduceCtorEq, false_or, or_false, hs, ht, if_false, false_and,
    and_false, if_neg, Option.getD_some]
  cases hp : parse_exif_datetime s with
  | none => simp
  | some e =>
    by_cases hd : (e - t).natAbs ≤ 90000 <;> simp [hd]

/-- C3 witness: an extracted date six hours earlier than the sidecar
timestamp is Equal under the 25-hour tolerance. -/
theorem compare_dates_both_present_witness :
    compare_dates (some "2023:11:14 16:13:20") (some 1700000000) = .equal :=
  (compare_dates_both_present "2023:11:14 16:13:20" 1700000000 (by decide) (by decide)).1.mpr
    ⟨1699978400, by decide, by decide⟩

/-- C4 counterexample: an extracted pair equal to (0,0) does NOT count
as absent: with the sidecar also at (0,0) the comparator answers
OnlyInSidecar-style `json_missing`, not BothAbsent as the claim
requires of a validity check applied to each side independently. -/
theorem compare_gps_zero_pair_counterexample :
    compare_gps (some (0, 0)) 0 0 = .json_missing ∧
    compare_gps (some (0, 0)) 0 0 ≠ .both_missing := by
  with_unfolding_all decide

/-- C4 amended: only the sidecar side goes through `validate_gps`; the
extracted side counts as present whenever `parse_exif_gps` returned a
pair, with no validity or (0,0) test; when the extracted pair is
present and the sidecar side is valid, Equal holds exactly when both
absolute deltas are below 0.0001. -/
theorem compare_gps_characterization (g : Option (ℚ × ℚ)) (jlat jlon : ℚ) :
    compare_gps g jlat jlon =
      match g with
      | none => if validate_gps jlat jlon then .exif_missing else .both_missing
      | some (a, b) =>
        if validate_gps jlat jlon then
          (if |a - jlat| < 1/10000 ∧ |b - jlon| < 1/10000 then .equal else .different)
        else .json_missing := by
  unfold compare_gps
  cases g with
  | none => cases hv : validate_gps jlat jlon <;> simp [hv]
  | some p =>
    obtain ⟨a, b⟩ := p
    cases hv : validate_gps jlat jlon <;> simp [hv]

/-- C5 counterexample: a photo asset whose GPS comparator is Equal and
whose date is only in the sidecar gets a NeedsUpdate plan that DOES
contain GPS field assignments, contradicting the claim that a field
whose comparator returned Equal is never written. -/
theorem equal_gps_still_written_counterexample :
    compare_gps
        (parse_exif_gps { gpsLatitude := some (.num 40), gpsLongitude := some (.num (-739/10)) })
        (40 : ℚ) (-739/10) = .equal ∧
    (process_decide { gpsLatitude := some (.num 40), gpsLongitude := some (.num (-739/10)) }
        ⟨.vInt 1700000000, 40, -739/10, 0, [], false, ""⟩ .photo).decision = .needsUpdate ∧
    "GPSLatitude" ∈
      ((process_decide { gpsLatitude := some (.num 40), gpsLongitude := some (.num (-739/10)) }
          ⟨.vInt 1700000000, 40, -739/10, 0, [], false, ""⟩ .photo).plan.map Assign.tag) := by
  with_unfolding_all decide

/-- C5 amended: for a photo asset classified NeedsUpdate the plan
contains the GPS fields exactly when the sidecar GPS pair validates and
the date fields exactly when the sidecar timestamp validates — the
comparator result (in particular Equal) plays no role in field
selection. -/
theorem photo_plan_fields_iff_sidecar_valid (tags : ExtractedTags) (j : SidecarMeta)
    (h : (process_decide tags j .photo).decision = .needsUpdate) :
    ("GPSLatitude" ∈ (process_decide tags j .photo).plan.map Assign.tag ↔
      validate_gps j.latitude j.longitude = true) ∧
    ("DateTimeOriginal" ∈ (process_decide tags j .photo).plan.map Assign.tag ↔
      validate_timestamp j.timestamp = true) := by
  rw [needsUpdate_plan tags j .photo h]
  constructor
  · simpa [buildPlan, normalize_timestamp_latitude, normalize_timestamp_longitude]
      using mem_photo_plan_gps (normalize_timestamp j)
  · simpa [buildPlan, validate_timestamp_normalize j]
      using mem_photo_plan_date (normalize_timestamp j)

/-- C5 amended witness: NeedsUpdate photo asset with valid sidecar GPS;
the GPS field is in the plan. -/
theorem photo_plan_fields_iff_sidecar_valid_witness :
    "GPSLatitude" ∈
      ((process_decide { gpsLatitude := some (.num 40), gpsLongitude := some (.num 50) }
          ⟨.vInt 1700000000, 40, 50, 0, [], false, ""⟩ .photo).plan.map Assign.tag) := by
  have h := photo_plan_fields_iff_sidecar_valid
    { gpsLatitude := some (.num 40), gpsLongitude := some (.num 50) }
    ⟨.vInt 1700000000, 40, 50, 0, [], false, ""⟩ (by with_unfolding_all decide)
  exact h.1.mpr (by with_unfolding_all decide)

/-- C6 counterexample: an asset with no extracted metadata and a
sidecar carrying nothing writable is NeedsUpdate with a plan that has
no field assignments at all, contradicting the claim that an empty plan
is never produced. -/
theorem empty_plan_counterexample :
    process_decide {} ⟨.vNone, 0, 0, 0, [], false, ""⟩ .photo = ⟨.needsUpdate, []⟩ := by
  with_unfolding_all decide

/-- C6 amended: an empty NeedsUpdate plan can be produced when the
sidecar has nothing writable (it arises from a BothAbsent date status,
which the complete condition does not cover); whenever the sidecar
timestamp is valid, a NeedsUpdate plan contains at least one field
assignment. -/
theorem needsUpdate_valid_ts_plan_nonempty (tags : ExtractedTags) (j : SidecarMeta)
    (kind : FileType) (hk : kind ≠ .unknown)
    (hv : validate_timestamp j.timestamp = true)
    (h : (process_decide tags j kind).decision = .needsUpdate) :
    (process_decide tags j kind).plan ≠ [] := by
  rw [needsUpdate_plan tags j kind h, normalize_timestamp_of_valid j hv]
  cases kind with
  | photo => simp [buildPlan, build_exiftool_cmd_photo, hv]
  | video => simp [buildPlan, build_exiftool_cmd_video, hv]
  | image => simp [buildPlan, build_exiftool_cmd_image, hv]
  | unknown => exact absurd rfl hk

/-- C6 amended witness: valid sidecar timestamp, date missing from the
file: NeedsUpdate with a non-empty plan. -/
theorem needsUpdate_valid_ts_plan_nonempty_witness :
    (process_decide {} ⟨.vInt 1700000000, 0, 0, 0, [], false, ""⟩ .photo).plan ≠ [] :=
  needsUpdate_valid_ts_plan_nonempty {} ⟨.vInt 1700000000, 0, 0, 0, [], false, ""⟩ .photo
    (by decide) (by with_unfolding_all decide) (by with_unfolding_all decide)

/-- C7 counterexample: a truthy latitude string that does not match the
DMS pattern is converted to 0.0 and the extractor still returns a pair,
not "absent" as the claim requires. -/
theorem unparseable_dms_counterexample :
    dms_to_decimal "bogus" = some 0 ∧
    parse_exif_gps { gpsLatitude := some (.str "bogus"), gpsLongitude := some (.num 50) } =
      some (0, 50) ∧
    parse_exif_gps { gpsLatitude := some (.str "bogus"), gpsLongitude := some (.num 50) } ≠
      none := by
  with_unfolding_all decide

/-- C7 amended: on a non-matching string `dms_to_decimal` returns 0.0
without raising, and the caller does not treat that as "no coordinate":
the extracted pair keeps the 0.0 component; on a matching string the
value is deg + min/60 + sec/3600 negated for S and W (with the float
conversion of the seconds group propagating its failure). -/
theorem dms_unparseable_not_absent (s : String) (q : ℚ) (hs : s ≠ "") (hq : q ≠ 0) :
    (dms_groups s.data = none →
      dms_to_decimal s = some 0 ∧
      parse_exif_gps { gpsLatitude := some (.str s), gpsLongitude := some (.num q) } =
        some (0, q)) ∧
    (∀ dg mn sc dir, dms_groups s.data = some (dg, mn, sc, dir) →
      dms_to_decimal s = (parseFloatQ sc).map (fun v =>
        let dec := (digitsVal dg : ℚ) + (digitsVal mn : ℚ) / 60 + v / 3600
        if dir = 'S' || dir = 'W' then -dec else dec)) := by
  constructor
  · intro hm
    have h1 : dms_to_decimal s = some 0 := by
      unfold dms_to_decimal
      rw [hm]
    refine ⟨h1, ?_⟩
    unfold parse_exif_gps
    simp [tagTruthy, hs, hq, tagToDec, h1]
  · intro dg mn sc dir hm
    unfold dms_to_decimal
    rw [hm]
    cases hf : parseFloatQ sc <;> simp [hf]

/-- C7 amended witness: a garbage coordinate string yields the pair
(0, 7), not absence. -/
theorem dms_unparseable_not_absent_witness :
    dms_to_decimal "garbage" = some 0 ∧
    parse_exif_gps { gpsLatitude := some (.str "garbage"), gpsLongitude := some (.num 7) } =
      some (0, 7) :=
  (dms_unparseable_not_absent "garbage" 7 (by decide) (by with_unfolding_all decide)).1
    (by decide)

/-- C8 counterexample: a numeric string and the boolean True are
accepted by the validator, contradicting the claim that every
non-integer value is rejected. -/
theorem numeric_string_timestamp_counterexample :
    validate_timestamp (.vStr "1700000000") = true ∧
    validate_timestamp (.vBool true) = true := by
  with_unfolding_all decide

/-- C8 amended: `validate_timestamp` is true exactly when the Python
`int()` conversion succeeds (ints, booleans, and integer-formatted
strings all convert) with a result strictly between 0 and 4102444800;
invalid timestamps are nulled out by the normalization step and so are
treated downstream as absent. -/
theorem validate_timestamp_pyInt_spec (v : PyVal) (j : SidecarMeta) :
    (validate_timestamp v = true ↔ ∃ n, pyInt v = some n ∧ 0 < n ∧ n < 4102444800) ∧
    (validate_timestamp j.timestamp = false → (normalize_timestamp j).timestamp = .vNone) := by
  constructor
  · unfold validate_timestamp
    cases h : pyInt v <;> simp [h]
  · intro hf
    rw [normalize_timestamp_of_invalid j hf]

/-- C8 amended witness: a non-numeric string is invalid and the
normalization replaces it by None. -/
theorem validate_timestamp_pyInt_spec_witness :
    validate_timestamp (.vStr "xyz") = false ∧
    (normalize_timestamp ⟨.vStr "xyz", 1, 2, 3, [], true, "d"⟩).timestamp = .vNone :=
  ⟨by with_unfolding_all decide,
   (validate_timestamp_pyInt_spec (.vStr "xyz") ⟨.vStr "xyz", 1, 2, 3, [], true, "d"⟩).2
     (by with_unfolding_all decide)⟩

/-- C9: the Image builder emits exactly the two date fields (when the
sidecar timestamp validates) followed by the description field (when
non-blank after trimming), and never any GPS field. -/
theorem image_plan_only_dates_and_description (j : SidecarMeta) :
    (build_exiftool_cmd_image j).map Assign.tag =
      (if validate_timestamp j.timestamp then ["DateCreated", "XMP:DateCreated"] else []) ++
      (if j.description.trim ≠ "" then ["Description"] else []) ∧
    ((build_exiftool_cmd_image j).all (fun a =>
      !(a.tag == "GPSLatitude") && !(a.tag == "GPSLongitude") &&
      !(a.tag == "GPSPosition") && !(a.tag == "Keys:GPSCoordinates"))) = true := by
  unfold build_exiftool_cmd_image
  constructor
  · split_ifs <;> simp_all
  · split_ifs <;> simp_all

/-- C10: a GPS tag entry that is absent, the number 0, or the empty
string makes the whole extracted pair absent, and against a valid
sidecar pair the comparator then reports OnlyInSidecar. -/
theorem zero_gps_component_absent (tags : ExtractedTags) (jlat jlon : ℚ)
    (h : tags.gpsLatitude = none ∨ tags.gpsLatitude = some (.num 0) ∨
         tags.gpsLatitude = some (.str "") ∨ tags.gpsLongitude = none ∨
         tags.gpsLongitude = some (.num 0) ∨ tags.gpsLongitude = some (.str ""))
    (hv : validate_gps jlat jlon = true) :
    parse_exif_gps tags = none ∧
    compare_gps (parse_exif_gps tags) jlat jlon = .exif_missing := by
  have hp : parse_exif_gps tags = none := by
    unfold parse_exif_gps
    rcases h with h | h | h | h | h | h <;> simp [h, tagTruthy]
  refine ⟨hp, ?_⟩
  rw [hp]
  unfold compare_gps
  simp [hv]

/-- C10 witness: a genuine equator fix (latitude exactly 0, longitude
50) is classified as having no extracted GPS; with a valid sidecar pair
the comparator says OnlyInSidecar. -/
theorem zero_gps_component_absent_witness :
    parse_exif_gps { gpsLatitude := some (.num 0), gpsLongitude := some (.num 50) } = none ∧
    compare_gps
      (parse_exif_gps { gpsLatitude := some (.num 0), gpsLongitude := some (.num 50) })
      40 (-739/10) = .exif_missing :=
  zero_gps_component_absent { gpsLatitude := some (.num 0), gpsLongitude := some (.num 50) }
    40 (-739/10) (by with_unfolding_all decide) (by with_unfolding_all decide)

end ExifInjector
